import Mathlib

/-! Query commands of the incentives module (`x/incentives/client/cli/query.go`).

The five query commands are embedded as functions that run against an
environment of external collaborators (address check, client-context setup,
pagination reader, the five remote query methods, the proto printer) and
return the value handed back by `RunE` together with the ordered trace of
collaborator calls that were made, each with its arguments and its result.
-/

namespace Incentives

/-! ## Data model -/

/-- Go `error` values that can flow through a command. -/
inductive Error where
  /-- the result of `fmt.Errorf`, identified by its formatted message -/
  | errorf (msg : String)
  /-- `cobra.NoArgs` rejecting the first surplus argument -/
  | unknownCommand (arg : String)
  /-- `cobra.ExactArgs n` rejecting `received` arguments -/
  | acceptsArgs (n received : Nat)
  /-- an error produced by an external collaborator -/
  | external (msg : String)
  deriving DecidableEq, Repr

/-- The flag set of an invocation (`cmd.Flags()`): flag name and raw value. -/
abbrev Flags := List (String × String)

/-- The fields of `client.Context` the query flags fill in. -/
structure Context where
  NodeURI : String
  OutputFormat : String
  Height : Int
  deriving DecidableEq, Repr

/-- The cosmos-sdk `query.PageRequest`. -/
structure PageRequest where
  Key : List Nat
  Offset : Nat
  Limit : Nat
  CountTotal : Bool
  Reverse : Bool
  deriving DecidableEq, Repr

/-- A remote response (`proto.Message`); its payload is not interpreted. -/
structure Response where
  payload : String
  deriving DecidableEq, Repr

structure QueryIncentivesRequest where
  Pagination : PageRequest
  deriving DecidableEq, Repr

structure QueryIncentiveRequest where
  Contract : String
  deriving DecidableEq, Repr

structure QueryGasMetersRequest where
  Contract : String
  Pagination : PageRequest
  deriving DecidableEq, Repr

structure QueryGasMeterRequest where
  Contract : String
  Participant : String
  deriving DecidableEq, Repr

structure QueryParamsRequest where
  deriving DecidableEq, Repr

/-- The value of a Go call returning `(T, error)`. -/
inductive Ret (α : Type) where
  | ok (a : α)
  | fail (e : Error)
  deriving DecidableEq, Repr

/-- The methods of the query client. -/
inductive Method where
  | Incentives | Incentive | GasMeters | GasMeter | Params
  deriving DecidableEq, Repr

/-- A call of a query-client method with the request it was given. -/
inductive RemoteCall where
  | Incentives (req : QueryIncentivesRequest)
  | Incentive (req : QueryIncentiveRequest)
  | GasMeters (req : QueryGasMetersRequest)
  | GasMeter (req : QueryGasMeterRequest)
  | Params (req : QueryParamsRequest)
  deriving DecidableEq, Repr

/-- The method a call goes to. -/
def RemoteCall.method : RemoteCall → Method
  | .Incentives _ => .Incentives
  | .Incentive _ => .Incentive
  | .GasMeters _ => .GasMeters
  | .GasMeter _ => .GasMeter
  | .Params _ => .Params

/-- The address-typed fields of the request of a call. -/
def RemoteCall.addresses : RemoteCall → List String
  | .Incentives _ => []
  | .Incentive req => [req.Contract]
  | .GasMeters req => [req.Contract]
  | .GasMeter req => [req.Contract, req.Participant]
  | .Params _ => []

/-- The pagination field of the request of a call, for the requests that have one. -/
def RemoteCall.pagination : RemoteCall → Option PageRequest
  | .Incentives req => some req.Pagination
  | .Incentive _ => none
  | .GasMeters req => some req.Pagination
  | .GasMeter _ => none
  | .Params _ => none

/-- The external collaborators of the commands. -/
structure Env where
  /-- `common.IsHexAddress` -/
  IsHexAddress : String → Bool
  /-- `client.GetClientQueryContext` -/
  GetClientQueryContext : Flags → Ret Context
  /-- `client.ReadPageRequest` -/
  ReadPageRequest : Flags → Ret PageRequest
  /-- the query client built on a context: `queryClient.Incentives` -/
  Incentives : Context → QueryIncentivesRequest → Ret Response
  /-- the query client built on a context: `queryClient.Incentive` -/
  Incentive : Context → QueryIncentiveRequest → Ret Response
  /-- the query client built on a context: `queryClient.GasMeters` -/
  GasMeters : Context → QueryGasMetersRequest → Ret Response
  /-- the query client built on a context: `queryClient.GasMeter` -/
  GasMeter : Context → QueryGasMeterRequest → Ret Response
  /-- the query client built on a context: `queryClient.Params` -/
  Params : Context → QueryParamsRequest → Ret Response
  /-- `clientCtx.PrintProto`; `none` is a nil error -/
  PrintProto : Context → Response → Option Error

/-- One collaborator call, with its arguments and what it returned. -/
inductive Event where
  | IsHexAddress (s : String) (valid : Bool)
  | GetClientQueryContext (flags : Flags) (r : Ret Context)
  | ReadPageRequest (flags : Flags) (r : Ret PageRequest)
  | Remote (ctx : Context) (call : RemoteCall) (r : Ret Response)
  | PrintProto (ctx : Context) (res : Response) (r : Option Error)
  deriving DecidableEq, Repr

/-- How a Go function body ends: a returned value, a returned error, or a run-time panic. -/
inductive Outcome (α : Type) where
  | ok (a : α)
  | err (e : Error)
  | panic (msg : String)
  deriving DecidableEq, Repr

/-- A run of a function body: the collaborator calls made, in order, and how it ended. -/
structure Exec (α : Type) where
  trace : List Event
  out : Outcome α
  deriving DecidableEq, Repr

/-- Sequencing: the second part runs only when the first returned a value. -/
def Exec.bind {α β : Type} (m : Exec α) (f : α → Exec β) : Exec β :=
  match m.out with
  | .ok a => ⟨m.trace ++ (f a).trace, (f a).out⟩
  | .err e => ⟨m.trace, .err e⟩
  | .panic msg => ⟨m.trace, .panic msg⟩

instance : Monad Exec where
  pure a := ⟨[], .ok a⟩
  bind := Exec.bind

/-- `return err`. -/
def Exec.fail {α : Type} (e : Error) : Exec α := ⟨[], .err e⟩

/-- A call of a collaborator returning `(T, error)`, followed by `if err != nil { return err }`. -/
def Exec.call {α : Type} (ev : Ret α → Event) (r : Ret α) : Exec α :=
  match r with
  | .ok a => ⟨[ev r], .ok a⟩
  | .fail e => ⟨[ev r], .err e⟩

/-- Slice indexing `args[i]`, which panics out of range. -/
def index (args : List String) (i : Nat) : Exec String :=
  match args.get? i with
  | some s => pure s
  | none => ⟨[], .panic "index out of range"⟩

/-- The run of `common.IsHexAddress(s)`. -/
def callIsHexAddress (env : Env) (s : String) : Exec Bool :=
  ⟨[.IsHexAddress s (env.IsHexAddress s)], .ok (env.IsHexAddress s)⟩

/-- The run of `return clientCtx.PrintProto(res)`. -/
def callPrintProto (env : Env) (clientCtx : Context) (res : Response) : Exec Unit :=
  match env.PrintProto clientCtx res with
  | none => ⟨[.PrintProto clientCtx res none], .ok ()⟩
  | some e => ⟨[.PrintProto clientCtx res (some e)], .err e⟩

/-! ## The command framework (the part of cobra the commands rely on) -/

/-- The positional-argument validators the commands declare in `Args`. -/
inductive PositionalArgs where
  | NoArgs
  | ExactArgs (n : Nat)
  deriving DecidableEq, Repr

/-- The number of positional arguments a validator accepts. -/
def PositionalArgs.count : PositionalArgs → Nat
  | .NoArgs => 0
  | .ExactArgs n => n

/-- Modelled from the spec: the arity check the command registry enforces, which is
cobra's and not part of this repository. `NoArgs` rejects any argument
(`len(args) > 0`), `ExactArgs n` rejects every count other than `n`
(`len(args) != n`); `none` is a nil error. -/
def PositionalArgs.validate : PositionalArgs → List String → Option Error
  | .NoArgs, args =>
    match args with
    | [] => none
    | a :: _ => some (.unknownCommand a)
  | .ExactArgs n, args =>
    if args.length ≠ n then some (.acceptsArgs n args.length) else none

/-- The fields of `cobra.Command` the commands set. -/
structure Command where
  Use : String
  Short : String
  Long : String
  Args : PositionalArgs
  RunE : Env → Flags → List String → Exec Unit

/-- The name of a command: the first word of `Use`. -/
def Command.Name (c : Command) : String :=
  String.mk (c.Use.toList.takeWhile fun ch => ch != ' ')

/-- Modelled from the spec: one invocation of a command by the registry (cobra's
`execute`, not part of this repository): argument arity is enforced before
anything else runs, then `RunE` is called with the arguments. -/
def Command.execute (c : Command) (env : Env) (flags : Flags) (args : List String) : Exec Unit :=
  match c.Args.validate args with
  | some e => Exec.fail e
  | none => c.RunE env flags args

/-! ## The commands -/

/-- `RunE` of `GetIncentivesCmd`. -/
def GetIncentivesCmd.RunE (env : Env) (cmd : Flags) (_ : List String) : Exec Unit := do
  let clientCtx ← Exec.call (.GetClientQueryContext cmd) (env.GetClientQueryContext cmd)
  let pageReq ← Exec.call (.ReadPageRequest cmd) (env.ReadPageRequest cmd)
  let req : QueryIncentivesRequest := { Pagination := pageReq }
  let res ← Exec.call (.Remote clientCtx (.Incentives req)) (env.Incentives clientCtx req)
  callPrintProto env clientCtx res

/-- `GetIncentivesCmd` queries the list of incentives. -/
def GetIncentivesCmd : Command where
  Use := "incentives"
  Short := "Gets incentives"
  Long := "Gets incentives"
  Args := .NoArgs
  RunE := GetIncentivesCmd.RunE

/-- `RunE` of `GetIncentiveCmd`. -/
def GetIncentiveCmd.RunE (env : Env) (cmd : Flags) (args : List String) : Exec Unit := do
  if !(← callIsHexAddress env (← index args 0)) then
    Exec.fail (.errorf ("invalid contract address: " ++ (← index args 0)))
  else
    let clientCtx ← Exec.call (.GetClientQueryContext cmd) (env.GetClientQueryContext cmd)
    let req : QueryIncentiveRequest := { Contract := (← index args 0) }
    let res ← Exec.call (.Remote clientCtx (.Incentive req)) (env.Incentive clientCtx req)
    callPrintProto env clientCtx res

/-- `GetIncentiveCmd` queries a given contract incentive. -/
def GetIncentiveCmd : Command where
  Use := "incentive [contract-address]"
  Short := "Gets incentive"
  Long := "Gets incentive"
  Args := .ExactArgs 1
  RunE := GetIncentiveCmd.RunE

/-- `RunE` of `GetGasMetersCmd`. -/
def GetGasMetersCmd.RunE (env : Env) (cmd : Flags) (args : List String) : Exec Unit := do
  if !(← callIsHexAddress env (← index args 0)) then
    Exec.fail (.errorf ("invalid contract address: " ++ (← index args 0)))
  else
    let clientCtx ← Exec.call (.GetClientQueryContext cmd) (env.GetClientQueryContext cmd)
    let pageReq ← Exec.call (.ReadPageRequest cmd) (env.ReadPageRequest cmd)
    let req : QueryGasMetersRequest := { Contract := (← index args 0), Pagination := pageReq }
    let res ← Exec.call (.Remote clientCtx (.GasMeters req)) (env.GasMeters clientCtx req)
    callPrintProto env clientCtx res

/-- `GetGasMetersCmd` queries the gas meters of an incentive contract. -/
def GetGasMetersCmd : Command where
  Use := "gas-meters [contract-address]"
  Short := "Gets meters for a given incentive contract"
  Long := "Gets meters for a given incentive contract"
  Args := .ExactArgs 1
  RunE := GetGasMetersCmd.RunE

/-- `RunE` of `GetGasMeterCmd`. -/
def GetGasMeterCmd.RunE (env : Env) (cmd : Flags) (args : List String) : Exec Unit := do
  if !(← callIsHexAddress env (← index args 0)) then
    Exec.fail (.errorf ("invalid contract address: " ++ (← index args 0)))
  else if !(← callIsHexAddress env (← index args 1)) then
    Exec.fail (.errorf ("invalid user address: " ++ (← index args 0)))
  else
    let clientCtx ← Exec.call (.GetClientQueryContext cmd) (env.GetClientQueryContext cmd)
    let req : QueryGasMeterRequest :=
      { Contract := (← index args 0), Participant := (← index args 1) }
    let res ← Exec.call (.Remote clientCtx (.GasMeter req)) (env.GasMeter clientCtx req)
    callPrintProto env clientCtx res

/-- `GetGasMeterCmd` queries the gas meter of a contract and a participant. -/
def GetGasMeterCmd : Command where
  Use := "gas-meter [contract-address] [participant-address]"
  Short := "Gets meter for a given incentive contract and user address"
  Long := "Gets meter for a given incentive contract and user address"
  Args := .ExactArgs 2
  RunE := GetGasMeterCmd.RunE

/-- `RunE` of `GetParamsCmd`. -/
def GetParamsCmd.RunE (env : Env) (cmd : Flags) (_ : List String) : Exec Unit := do
  let clientCtx ← Exec.call (.GetClientQueryContext cmd) (env.GetClientQueryContext cmd)
  let req : QueryParamsRequest := {}
  let res ← Exec.call (.Remote clientCtx (.Params req)) (env.Params clientCtx req)
  callPrintProto env clientCtx res

/-- `GetParamsCmd` queries the module parameters. -/
def GetParamsCmd : Command where
  Use := "params"
  Short := "Gets incentives params"
  Long := "Gets incentives params"
  Args := .NoArgs
  RunE := GetParamsCmd.RunE

/-- The commands `GetQueryCmd` adds to the parent command, in order. -/
def GetQueryCmd.commands : List Command :=
  [GetIncentivesCmd, GetIncentiveCmd, GetGasMetersCmd, GetGasMeterCmd, GetParamsCmd]

/-! ## Observations on a trace -/

/-- The remote calls of a trace, in order. -/
def remoteCalls : List Event → List RemoteCall
  | [] => []
  | .Remote _ call _ :: es => call :: remoteCalls es
  | _ :: es => remoteCalls es

/-- Whether an event is a call of the proto printer. -/
def Event.isPrintProto : Event → Bool
  | .PrintProto _ _ _ => true
  | _ => false

/-- Whether an event is a call of the pagination reader. -/
def Event.isReadPageRequest : Event → Bool
  | .ReadPageRequest _ _ => true
  | _ => false

/-- Whether an event is a call of the client-context setup. -/
def Event.isGetClientQueryContext : Event → Bool
  | .GetClientQueryContext _ _ => true
  | _ => false

/-- Whether an event is a remote call. -/
def Event.isRemote : Event → Bool
  | .Remote _ _ _ => true
  | _ => false

/-! ## The interface table of the specification -/

/-- One row of the interface table: command name, number of positional arguments,
whether the command takes pagination flags, and the remote method. -/
structure Row where
  command : String
  positional : Nat
  paginated : Bool
  method : Method
  deriving DecidableEq, Repr

/-- The interface table as the specification words it. -/
def interfaceTable : List Row :=
  [ ⟨"incentives", 0, true, .Incentives⟩,
    ⟨"incentive", 1, false, .Incentive⟩,
    ⟨"gas-meters", 1, true, .GasMeters⟩,
    ⟨"gas-meter", 2, false, .GasMeter⟩,
    ⟨"params", 0, false, .Params⟩ ]

/-- The row of the interface table for a command name. -/
def tableRow (name : String) : Option Row :=
  interfaceTable.find? fun r => r.command == name

/-- Every stage before the remote call succeeds on an input, by the results the
collaborators give on it: each positional argument passes the address check,
client setup returns a context and, for a command with pagination flags, the
pagination reader returns a page request. -/
def stagesSucceed (env : Env) (paginated : Bool) (flags : Flags) (args : List String) : Prop :=
  (∀ a ∈ args, env.IsHexAddress a = true) ∧
  (∃ ctx, env.GetClientQueryContext flags = .ok ctx) ∧
  (paginated = true → ∃ p, env.ReadPageRequest flags = .ok p)

/-! ## Concrete collaborators -/

/-- The byte length of an address. -/
def AddressLength : Nat := 20

/-- Whether a character is a hexadecimal digit, in either case. -/
def isHexCharacter (c : Char) : Bool :=
  ('0' ≤ c && c ≤ '9') || ('a' ≤ c && c ≤ 'f') || ('A' ≤ c && c ≤ 'F')

/-- Whether the characters start with `0x` or `0X`. -/
def startsWith0x : List Char → Bool
  | '0' :: 'x' :: _ => true
  | '0' :: 'X' :: _ => true
  | _ => false

/-- Modelled from the spec: the hex-address check of the host address scheme
(`common.IsHexAddress` of go-ethereum, which is not part of this repository): a
fixed-length hex string, case-insensitive, with an optional `0x` prefix. -/
def common.IsHexAddress (s : String) : Bool :=
  let cs := if startsWith0x s.toList then s.toList.drop 2 else s.toList
  cs.length == 2 * AddressLength && cs.all isHexCharacter

/-- The zero address in hex. -/
def zeroAddress : String := "0x0000000000000000000000000000000000000000"

/-- A reachable node: every collaborator succeeds. -/
def Env.healthy : Env where
  IsHexAddress := common.IsHexAddress
  GetClientQueryContext := fun _ => .ok ⟨"tcp://localhost:26657", "text", 0⟩
  ReadPageRequest := fun _ => .ok ⟨[], 0, 100, false, false⟩
  Incentives := fun _ _ => .ok ⟨"incentives"⟩
  Incentive := fun _ req => .ok ⟨"incentive " ++ req.Contract⟩
  GasMeters := fun _ req => .ok ⟨"gas meters " ++ req.Contract⟩
  GasMeter := fun _ req => .ok ⟨"gas meter " ++ req.Contract ++ " " ++ req.Participant⟩
  Params := fun _ _ => .ok ⟨"params"⟩
  PrintProto := fun _ _ => none

/-- A node whose query service rejects every call. -/
def Env.remoteDown : Env :=
  { Env.healthy with
    Incentives := fun _ _ => .fail (.external "rpc error")
    Incentive := fun _ _ => .fail (.external "rpc error")
    GasMeters := fun _ _ => .fail (.external "rpc error")
    GasMeter := fun _ _ => .fail (.external "rpc error")
    Params := fun _ _ => .fail (.external "rpc error") }

/-- No client context can be set up. -/
def Env.noClient : Env :=
  { Env.healthy with GetClientQueryContext := fun _ => .fail (.external "client setup") }

/-- The pagination flags cannot be parsed. -/
def Env.badPageFlags : Env :=
  { Env.healthy with ReadPageRequest := fun _ => .fail (.external "flag parse") }

/-! ## Theorems -/

/-- C1 (evaluation of the code): `gas-meter` with a valid contract address and the
invalid participant `xyz` fails with a message that carries the contract argument
`args[0]`, not the offending participant argument `args[1]`. -/
theorem gasMeter_user_error_carries_contract :
    common.IsHexAddress zeroAddress = true ∧ common.IsHexAddress "xyz" = false ∧
    GetGasMeterCmd.execute Env.healthy [] [zeroAddress, "xyz"] =
      ⟨[.IsHexAddress zeroAddress true, .IsHexAddress "xyz" false],
        .err (.errorf ("invalid user address: " ++ zeroAddress))⟩ ∧
    (GetGasMeterCmd.execute Env.healthy [] [zeroAddress, "xyz"]).out ≠
      .err (.errorf ("invalid user address: " ++ "xyz")) := by
  decide

/-- C2: `gas-meter` whose first argument fails the hex-address check returns the
error `invalid contract address: ` followed by the first argument, whatever the
second argument is; the only collaborator call made is the address check of the
first argument, so client setup, the remote methods and the printer are not
invoked. -/
theorem gasMeter_invalid_contract (env : Env) (flags : Flags) (a b : String)
    (h : env.IsHexAddress a = false) :
    GetGasMeterCmd.execute env flags [a, b] =
      ⟨[.IsHexAddress a false], .err (.errorf ("invalid contract address: " ++ a))⟩ ∧
    ∀ ev ∈ (GetGasMeterCmd.execute env flags [a, b]).trace,
      ev.isGetClientQueryContext = false ∧ ev.isRemote = false ∧ ev.isPrintProto = false := by
  have hrun : GetGasMeterCmd.execute env flags [a, b] =
      ⟨[.IsHexAddress a false], .err (.errorf ("invalid contract address: " ++ a))⟩ := by
    simp [Command.execute, GetGasMeterCmd, PositionalArgs.validate, GetGasMeterCmd.RunE,
      bind, Exec.bind, pure, callIsHexAddress, index, Exec.fail, h]
  rw [hrun]
  simp [Event.isGetClientQueryContext, Event.isRemote, Event.isPrintProto]

/-- Witness of `gasMeter_invalid_contract`: contract `xyz`, participant the zero address. -/
theorem gasMeter_invalid_contract_witness :
    Env.healthy.IsHexAddress "xyz" = false ∧
    GetGasMeterCmd.execute Env.healthy [] ["xyz", zeroAddress] =
      ⟨[.IsHexAddress "xyz" false], .err (.errorf ("invalid contract address: " ++ "xyz"))⟩ :=
  ⟨by decide, (gasMeter_invalid_contract Env.healthy [] "xyz" zeroAddress (by decide)).1⟩

/-- C4: `incentive a` with `a` passing the hex-address check and client setup
succeeding makes exactly one remote call, to `Incentive`, on the context that was
set up and with a request whose `Contract` is `a` itself. -/
theorem incentive_dispatches_contract (env : Env) (flags : Flags) (a : String) (ctx : Context)
    (hv : env.IsHexAddress a = true) (hc : env.GetClientQueryContext flags = .ok ctx) :
    remoteCalls (GetIncentiveCmd.execute env flags [a]).trace = [.Incentive { Contract := a }] ∧
    Event.Remote ctx (.Incentive { Contract := a }) (env.Incentive ctx { Contract := a }) ∈
      (GetIncentiveCmd.execute env flags [a]).trace := by
  simp only [Command.execute, GetIncentiveCmd, PositionalArgs.validate, GetIncentiveCmd.RunE,
    bind, Exec.bind, pure, callIsHexAddress, index, Exec.fail, Exec.call, callPrintProto, hv, hc]
  simp
  repeat' split
  all_goals simp_all [remoteCalls]

/-- Witness of `incentive_dispatches_contract`: the zero address on a reachable node. -/
theorem incentive_dispatches_contract_witness :
    Env.healthy.IsHexAddress zeroAddress = true ∧
    remoteCalls (GetIncentiveCmd.execute Env.healthy [] [zeroAddress]).trace =
      [.Incentive { Contract := "0x0000000000000000000000000000000000000000" }] :=
  ⟨by decide,
    (incentive_dispatches_contract Env.healthy [] zeroAddress
      ⟨"tcp://localhost:26657", "text", 0⟩ (by decide) rfl).1⟩

/-- C6 (as stated, refuted): when no client context can be set up, `params` with no
arguments makes no remote call at all and returns the setup error. -/
theorem params_no_call_without_client :
    GetParamsCmd.execute Env.noClient [] [] =
      ⟨[.GetClientQueryContext [] (.fail (.external "client setup"))],
        .err (.external "client setup")⟩ ∧
    remoteCalls (GetParamsCmd.execute Env.noClient [] []).trace = [] ∧
    remoteCalls (GetParamsCmd.execute Env.noClient [] []).trace ≠ [.Params {}] := by
  decide

/-- C6 (amended): `params` with no arguments makes exactly one remote call, to
`Params` with the empty request, whenever client setup succeeds, whatever the
other collaborators do; when client setup fails with `e` it makes no remote call
and returns `e`. -/
theorem params_dispatches_once (env : Env) (flags : Flags) :
    (∀ ctx, env.GetClientQueryContext flags = .ok ctx →
      remoteCalls (GetParamsCmd.execute env flags []).trace = [.Params {}] ∧
      Event.Remote ctx (.Params {}) (env.Params ctx {}) ∈
        (GetParamsCmd.execute env flags []).trace) ∧
    (∀ e, env.GetClientQueryContext flags = .fail e →
      remoteCalls (GetParamsCmd.execute env flags []).trace = [] ∧
      (GetParamsCmd.execute env flags []).out = .err e) := by
  constructor
  · intro ctx hc
    simp only [Command.execute, GetParamsCmd, PositionalArgs.validate, GetParamsCmd.RunE,
      bind, Exec.bind, pure, Exec.call, callPrintProto, hc]
    repeat' split
    all_goals simp_all [remoteCalls]
  · intro e hc
    simp [Command.execute, GetParamsCmd, PositionalArgs.validate, GetParamsCmd.RunE,
      bind, Exec.bind, Exec.call, hc, remoteCalls]

/-- Witness of `params_dispatches_once`: a reachable node, and a node without client context. -/
theorem params_dispatches_once_witness :
    (Env.healthy.GetClientQueryContext [] = .ok ⟨"tcp://localhost:26657", "text", 0⟩ ∧
      remoteCalls (GetParamsCmd.execute Env.healthy [] []).trace = [.Params {}]) ∧
    (Env.noClient.GetClientQueryContext [] = .fail (.external "client setup") ∧
      (GetParamsCmd.execute Env.noClient [] []).out = .err (.external "client setup")) :=
  ⟨⟨rfl, ((params_dispatches_once Env.healthy []).1 _ rfl).1⟩,
    ⟨rfl, ((params_dispatches_once Env.noClient []).2 _ rfl).2⟩⟩

/-- C5: for each of the five commands and every invocation, a remote call that
returned the error `e` makes the command return exactly `e`, and the printer is
not invoked in that run. -/
theorem remote_error_returned_unprinted (c : Command) (hc : c ∈ GetQueryCmd.commands)
    (env : Env) (flags : Flags) (args : List String) (ctx : Context) (call : RemoteCall)
    (e : Error) (h : Event.Remote ctx call (.fail e) ∈ (c.execute env flags args).trace) :
    (c.execute env flags args).out = .err e ∧
      ∀ ev ∈ (c.execute env flags args).trace, ev.isPrintProto = false := by
  simp only [GetQueryCmd.commands, List.mem_cons, List.mem_singleton, List.not_mem_nil,
    or_false] at hc
  rcases hc with rfl | rfl | rfl | rfl | rfl
  · rcases args with _ | ⟨a, rest⟩
    · revert h
      simp only [Command.execute, GetIncentivesCmd, PositionalArgs.validate,
        GetIncentivesCmd.RunE, bind, Exec.bind, pure, Exec.call, callPrintProto, Exec.fail]
      repeat' split
      all_goals simp_all [Event.isPrintProto]
    · simp [Command.execute, GetIncentivesCmd, PositionalArgs.validate, Exec.fail] at h
  · rcases args with _ | ⟨a, _ | ⟨b, rest⟩⟩
    · simp [Command.execute, GetIncentiveCmd, PositionalArgs.validate, Exec.fail] at h
    · revert h
      simp only [Command.execute, GetIncentiveCmd, PositionalArgs.validate,
        GetIncentiveCmd.RunE, bind, Exec.bind, pure, Exec.call, callPrintProto, Exec.fail,
        callIsHexAddress, index]
      simp only [List.length_singleton, ne_eq, not_true_eq_false, ↓reduceIte, List.get?_cons_zero]
      repeat' split
      all_goals simp_all [Event.isPrintProto]
    · simp [Command.execute, GetIncentiveCmd, PositionalArgs.validate, Exec.fail] at h
  · rcases args with _ | ⟨a, _ | ⟨b, rest⟩⟩
    · simp [Command.execute, GetGasMetersCmd, PositionalArgs.validate, Exec.fail] at h
    · revert h
      simp only [Command.execute, GetGasMetersCmd, PositionalArgs.validate,
        GetGasMetersCmd.RunE, bind, Exec.bind, pure, Exec.call, callPrintProto, Exec.fail,
        callIsHexAddress, index]
      simp only [List.length_singleton, ne_eq, not_true_eq_false, ↓reduceIte, List.get?_cons_zero]
      repeat' split
      all_goals simp_all [Event.isPrintProto]
    · simp [Command.execute, GetGasMetersCmd, PositionalArgs.validate, Exec.fail] at h
  · rcases args with _ | ⟨a, _ | ⟨b, _ | ⟨d, rest⟩⟩⟩
    · simp [Command.execute, GetGasMeterCmd, PositionalArgs.validate, Exec.fail] at h
    · simp [Command.execute, GetGasMeterCmd, PositionalArgs.validate, Exec.fail] at h
    · revert h
      simp only [Command.execute, GetGasMeterCmd, PositionalArgs.validate,
        GetGasMeterCmd.RunE, bind, Exec.bind, pure, Exec.call, callPrintProto, Exec.fail,
        callIsHexAddress, index]
      simp only [List.length_cons, List.length_nil, ne_eq, not_true_eq_false, ↓reduceIte,
        List.get?_cons_zero, List.get?_cons_succ]
      repeat' split
      all_goals simp_all [Event.isPrintProto]
    · simp [Command.execute, GetGasMeterCmd, PositionalArgs.validate, Exec.fail] at h
  · rcases args with _ | ⟨a, rest⟩
    · revert h
      simp only [Command.execute, GetParamsCmd, PositionalArgs.validate,
        GetParamsCmd.RunE, bind, Exec.bind, pure, Exec.call, callPrintProto, Exec.fail]
      repeat' split
      all_goals simp_all [Event.isPrintProto]
    · simp [Command.execute, GetParamsCmd, PositionalArgs.validate, Exec.fail] at h

/-- Witness of `remote_error_returned_unprinted`: `gas-meter` against a node whose query
service rejects the call. -/
theorem remote_error_returned_unprinted_witness :
    Event.Remote ⟨"tcp://localhost:26657", "text", 0⟩
        (.GasMeter { Contract := zeroAddress, Participant := zeroAddress })
        (.fail (.external "rpc error")) ∈
      (GetGasMeterCmd.execute Env.remoteDown [] [zeroAddress, zeroAddress]).trace ∧
    (GetGasMeterCmd.execute Env.remoteDown [] [zeroAddress, zeroAddress]).out =
      .err (.external "rpc error") :=
  ⟨by decide,
    (remote_error_returned_unprinted GetGasMeterCmd (by simp [GetQueryCmd.commands])
      Env.remoteDown [] [zeroAddress, zeroAddress] ⟨"tcp://localhost:26657", "text", 0⟩
      (.GasMeter { Contract := zeroAddress, Participant := zeroAddress })
      (.external "rpc error") (by decide)).1⟩

/-- C3: for each of the five commands and every invocation, whenever a remote
method is called, every address-typed field of its request (`Contract` of
`Incentive` and `GasMeters`, `Contract` and `Participant` of `GasMeter`) satisfies
the hex-address check, and that check was run on it, with a positive result, in
the same invocation. -/
theorem dispatched_addresses_validated (c : Command) (hc : c ∈ GetQueryCmd.commands)
    (env : Env) (flags : Flags) (args : List String) (ctx : Context) (call : RemoteCall)
    (r : Ret Response) (h : Event.Remote ctx call r ∈ (c.execute env flags args).trace) :
    ∀ a ∈ call.addresses,
      env.IsHexAddress a = true ∧
      Event.IsHexAddress a true ∈ (c.execute env flags args).trace := by
  simp only [GetQueryCmd.commands, List.mem_cons, List.mem_singleton, List.not_mem_nil,
    or_false] at hc
  rcases hc with rfl | rfl | rfl | rfl | rfl
  · rcases args with _ | ⟨a, rest⟩
    · revert h
      simp only [Command.execute, GetIncentivesCmd, PositionalArgs.validate,
        GetIncentivesCmd.RunE, bind, Exec.bind, pure, Exec.call, callPrintProto, Exec.fail]
      repeat' split
      all_goals simp_all [RemoteCall.addresses]
    · simp [Command.execute, GetIncentivesCmd, PositionalArgs.validate, Exec.fail] at h
  · rcases args with _ | ⟨a, _ | ⟨b, rest⟩⟩
    · simp [Command.execute, GetIncentiveCmd, PositionalArgs.validate, Exec.fail] at h
    · revert h
      simp only [Command.execute, GetIncentiveCmd, PositionalArgs.validate,
        GetIncentiveCmd.RunE, bind, Exec.bind, pure, Exec.call, callPrintProto, Exec.fail,
        callIsHexAddress, index]
      simp only [List.length_singleton, ne_eq, not_true_eq_false, ↓reduceIte, List.get?_cons_zero]
      repeat' split
      all_goals simp_all [RemoteCall.addresses]
    · simp [Command.execute, GetIncentiveCmd, PositionalArgs.validate, Exec.fail] at h
  · rcases args with _ | ⟨a, _ | ⟨b, rest⟩⟩
    · simp [Command.execute, GetGasMetersCmd, PositionalArgs.validate, Exec.fail] at h
    · revert h
      simp only [Command.execute, GetGasMetersCmd, PositionalArgs.validate,
        GetGasMetersCmd.RunE, bind, Exec.bind, pure, Exec.call, callPrintProto, Exec.fail,
        callIsHexAddress, index]
      simp only [List.length_singleton, ne_eq, not_true_eq_false, ↓reduceIte, List.get?_cons_zero]
      repeat' split
      all_goals simp_all [RemoteCall.addresses]
    · simp [Command.execute, GetGasMetersCmd, PositionalArgs.validate, Exec.fail] at h
  · rcases args with _ | ⟨a, _ | ⟨b, _ | ⟨d, rest⟩⟩⟩
    · simp [Command.execute, GetGasMeterCmd, PositionalArgs.validate, Exec.fail] at h
    · simp [Command.execute, GetGasMeterCmd, PositionalArgs.validate, Exec.fail] at h
    · revert h
      simp only [Command.execute, GetGasMeterCmd, PositionalArgs.validate,
        GetGasMeterCmd.RunE, bind, Exec.bind, pure, Exec.call, callPrintProto, Exec.fail,
        callIsHexAddress, index]
      simp only [List.length_cons, List.length_nil, ne_eq, not_true_eq_false, ↓reduceIte,
        List.get?_cons_zero, List.get?_cons_succ]
      repeat' split
      all_goals simp_all [RemoteCall.addresses]
    · simp [Command.execute, GetGasMeterCmd, PositionalArgs.validate, Exec.fail] at h
  · rcases args with _ | ⟨a, rest⟩
    · revert h
      simp only [Command.execute, GetParamsCmd, PositionalArgs.validate,
        GetParamsCmd.RunE, bind, Exec.bind, pure, Exec.call, callPrintProto, Exec.fail]
      repeat' split
      all_goals simp_all [RemoteCall.addresses]
    · simp [Command.execute, GetParamsCmd, PositionalArgs.validate, Exec.fail] at h

/-- Witness of `dispatched_addresses_validated`: `gas-meter` with the zero address twice
on a reachable node. -/
theorem dispatched_addresses_validated_witness :
    Event.Remote ⟨"tcp://localhost:26657", "text", 0⟩
        (.GasMeter { Contract := zeroAddress, Participant := zeroAddress })
        (.ok ⟨"gas meter " ++ zeroAddress ++ " " ++ zeroAddress⟩) ∈
      (GetGasMeterCmd.execute Env.healthy [] [zeroAddress, zeroAddress]).trace ∧
    ∀ a ∈ (RemoteCall.GasMeter { Contract := zeroAddress, Participant := zeroAddress }).addresses,
      Env.healthy.IsHexAddress a = true ∧
      Event.IsHexAddress a true ∈
        (GetGasMeterCmd.execute Env.healthy [] [zeroAddress, zeroAddress]).trace :=
  ⟨by decide,
    dispatched_addresses_validated GetGasMeterCmd (by simp [GetQueryCmd.commands])
      Env.healthy [] [zeroAddress, zeroAddress] ⟨"tcp://localhost:26657", "text", 0⟩
      (.GasMeter { Contract := zeroAddress, Participant := zeroAddress })
      (.ok ⟨"gas meter " ++ zeroAddress ++ " " ++ zeroAddress⟩) (by decide)⟩

/-- C7: the five commands declare, in order, the names and positional-argument
counts of the interface table (incentives 0, incentive 1, gas-meters 1,
gas-meter 2, params 0), and an invocation of any of them with a different number
of arguments is rejected by the declared validator with its error, whatever the
arguments and the collaborators are, before any collaborator (address check,
client setup, pagination reader, remote method, printer) is called. -/
theorem arity_checked_first :
    GetQueryCmd.commands.map (fun c => (c.Name, c.Args.count)) =
      interfaceTable.map (fun r => (r.command, r.positional)) ∧
    GetQueryCmd.commands.map (fun c => (c.Name, c.Args.count)) =
      [("incentives", 0), ("incentive", 1), ("gas-meters", 1), ("gas-meter", 2), ("params", 0)] ∧
    ∀ c ∈ GetQueryCmd.commands, ∀ (env : Env) (flags : Flags) (args : List String),
      args.length ≠ c.Args.count →
      ∃ e, c.Args.validate args = some e ∧ c.execute env flags args = ⟨[], .err e⟩ := by
  refine ⟨by decide, by decide, ?_⟩
  intro c hc env flags args hlen
  simp only [GetQueryCmd.commands, List.mem_cons, List.mem_singleton, List.not_mem_nil,
    or_false] at hc
  rcases hc with rfl | rfl | rfl | rfl | rfl
  · rcases args with _ | ⟨a, rest⟩
    · simp [GetIncentivesCmd, PositionalArgs.count] at hlen
    · exact ⟨.unknownCommand a, rfl, rfl⟩
  · refine ⟨.acceptsArgs 1 args.length, ?_, ?_⟩ <;>
      simp_all [Command.execute, GetIncentiveCmd, PositionalArgs.validate, PositionalArgs.count,
        Exec.fail]
  · refine ⟨.acceptsArgs 1 args.length, ?_, ?_⟩ <;>
      simp_all [Command.execute, GetGasMetersCmd, PositionalArgs.validate, PositionalArgs.count,
        Exec.fail]
  · refine ⟨.acceptsArgs 2 args.length, ?_, ?_⟩ <;>
      simp_all [Command.execute, GetGasMeterCmd, PositionalArgs.validate, PositionalArgs.count,
        Exec.fail]
  · rcases args with _ | ⟨a, rest⟩
    · simp [GetParamsCmd, PositionalArgs.count] at hlen
    · exact ⟨.unknownCommand a, rfl, rfl⟩

/-- Witness of `arity_checked_first`: `gas-meter` with one valid address only. -/
theorem arity_checked_first_witness :
    [zeroAddress].length ≠ GetGasMeterCmd.Args.count ∧
    ∃ e, GetGasMeterCmd.Args.validate [zeroAddress] = some e ∧
      GetGasMeterCmd.execute Env.healthy [] [zeroAddress] = ⟨[], .err e⟩ :=
  ⟨by decide,
    arity_checked_first.2.2 GetGasMeterCmd (by simp [GetQueryCmd.commands])
      Env.healthy [] [zeroAddress] (by decide)⟩

/-- C8: in `incentives` and `gas-meters`, a pagination reader that returned the page
request `p` is followed by exactly one remote call whose request has `Pagination`
equal to `p` (and, for `gas-meters`, `Contract` equal to the validated argument); a
pagination reader that returned the error `e` makes the command return `e` with no
remote call. `incentive`, `gas-meter` and `params` never call the pagination reader
and the requests they send have no pagination field. -/
theorem pagination_forwarded (env : Env) (flags : Flags) (args : List String) :
    (∀ p, Event.ReadPageRequest flags (.ok p) ∈ (GetIncentivesCmd.execute env flags args).trace →
      remoteCalls (GetIncentivesCmd.execute env flags args).trace =
        [.Incentives { Pagination := p }]) ∧
    (∀ p, Event.ReadPageRequest flags (.ok p) ∈ (GetGasMetersCmd.execute env flags args).trace →
      ∃ a, args = [a] ∧ env.IsHexAddress a = true ∧
        remoteCalls (GetGasMetersCmd.execute env flags args).trace =
          [.GasMeters { Contract := a, Pagination := p }]) ∧
    (∀ c ∈ [GetIncentivesCmd, GetGasMetersCmd], ∀ e,
      Event.ReadPageRequest flags (.fail e) ∈ (c.execute env flags args).trace →
      (c.execute env flags args).out = .err e ∧
      remoteCalls (c.execute env flags args).trace = []) ∧
    (∀ c ∈ [GetIncentiveCmd, GetGasMeterCmd, GetParamsCmd],
      (∀ ev ∈ (c.execute env flags args).trace, ev.isReadPageRequest = false) ∧
      ∀ call ∈ remoteCalls (c.execute env flags args).trace, call.pagination = none) := by
  refine ⟨?_, ?_, ?_, ?_⟩
  · intro p
    rcases args with _ | ⟨a, rest⟩
    · simp only [Command.execute, GetIncentivesCmd, PositionalArgs.validate,
        GetIncentivesCmd.RunE, bind, Exec.bind, pure, Exec.call, callPrintProto, Exec.fail]
      repeat' split
      all_goals simp_all [remoteCalls]
    · simp [Command.execute, GetIncentivesCmd, PositionalArgs.validate, Exec.fail]
  · intro p
    rcases args with _ | ⟨a, _ | ⟨b, rest⟩⟩
    · simp [Command.execute, GetGasMetersCmd, PositionalArgs.validate, Exec.fail]
    · simp only [Command.execute, GetGasMetersCmd, PositionalArgs.validate,
        GetGasMetersCmd.RunE, bind, Exec.bind, pure, Exec.call, callPrintProto, Exec.fail,
        callIsHexAddress, index]
      simp only [List.length_singleton, ne_eq, not_true_eq_false, ↓reduceIte, List.get?_cons_zero]
      repeat' split
      all_goals simp_all [remoteCalls]
    · simp [Command.execute, GetGasMetersCmd, PositionalArgs.validate, Exec.fail]
  · intro c hc e
    simp only [List.mem_cons, List.mem_singleton, List.not_mem_nil, or_false] at hc
    rcases hc with rfl | rfl
    · rcases args with _ | ⟨a, rest⟩
      · simp only [Command.execute, GetIncentivesCmd, PositionalArgs.validate,
          GetIncentivesCmd.RunE, bind, Exec.bind, pure, Exec.call, callPrintProto, Exec.fail]
        repeat' split
        all_goals simp_all [remoteCalls]
      · simp [Command.execute, GetIncentivesCmd, PositionalArgs.validate, Exec.fail]
    · rcases args with _ | ⟨a, _ | ⟨b, rest⟩⟩
      · simp [Command.execute, GetGasMetersCmd, PositionalArgs.validate, Exec.fail]
      · simp only [Command.execute, GetGasMetersCmd, PositionalArgs.validate,
          GetGasMetersCmd.RunE, bind, Exec.bind, pure, Exec.call, callPrintProto, Exec.fail,
          callIsHexAddress, index]
        simp only [List.length_singleton, ne_eq, not_true_eq_false, ↓reduceIte,
          List.get?_cons_zero]
        repeat' split
        all_goals simp_all [remoteCalls]
      · simp [Command.execute, GetGasMetersCmd, PositionalArgs.validate, Exec.fail]
  · intro c hc
    simp only [List.mem_cons, List.mem_singleton, List.not_mem_nil, or_false] at hc
    rcases hc with rfl | rfl | rfl
    · rcases args with _ | ⟨a, _ | ⟨b, rest⟩⟩
      · simp [Command.execute, GetIncentiveCmd, PositionalArgs.validate, Exec.fail, remoteCalls]
      · simp only [Command.execute, GetIncentiveCmd, PositionalArgs.validate,
          GetIncentiveCmd.RunE, bind, Exec.bind, pure, Exec.call, callPrintProto, Exec.fail,
          callIsHexAddress, index]
        simp only [List.length_singleton, ne_eq, not_true_eq_false, ↓reduceIte,
          List.get?_cons_zero]
        repeat' split
        all_goals simp_all [remoteCalls, Event.isReadPageRequest, RemoteCall.pagination]
      · simp [Command.execute, GetIncentiveCmd, PositionalArgs.validate, Exec.fail, remoteCalls]
    · rcases args with _ | ⟨a, _ | ⟨b, _ | ⟨d, rest⟩⟩⟩
      · simp [Command.execute, GetGasMeterCmd, PositionalArgs.validate, Exec.fail, remoteCalls]
      · simp [Command.execute, GetGasMeterCmd, PositionalArgs.validate, Exec.fail, remoteCalls]
      · simp only [Command.execute, GetGasMeterCmd, PositionalArgs.validate,
          GetGasMeterCmd.RunE, bind, Exec.bind, pure, Exec.call, callPrintProto, Exec.fail,
          callIsHexAddress, index]
        simp only [List.length_cons, List.length_nil, ne_eq, not_true_eq_false, ↓reduceIte,
          List.get?_cons_zero, List.get?_cons_succ]
        repeat' split
        all_goals simp_all [remoteCalls, Event.isReadPageRequest, RemoteCall.pagination]
      · simp [Command.execute, GetGasMeterCmd, PositionalArgs.validate, Exec.fail, remoteCalls]
    · rcases args with _ | ⟨a, rest⟩
      · simp only [Command.execute, GetParamsCmd, PositionalArgs.validate,
          GetParamsCmd.RunE, bind, Exec.bind, pure, Exec.call, callPrintProto, Exec.fail]
        repeat' split
        all_goals simp_all [remoteCalls, Event.isReadPageRequest, RemoteCall.pagination]
      · simp [Command.execute, GetParamsCmd, PositionalArgs.validate, Exec.fail, remoteCalls]

/-- Witness of `pagination_forwarded`: `incentives` and `gas-meters` on a reachable node,
and `gas-meters` with pagination flags that cannot be parsed. -/
theorem pagination_forwarded_witness :
    (Event.ReadPageRequest [] (.ok ⟨[], 0, 100, false, false⟩) ∈
        (GetIncentivesCmd.execute Env.healthy [] []).trace ∧
      remoteCalls (GetIncentivesCmd.execute Env.healthy [] []).trace =
        [.Incentives { Pagination := ⟨[], 0, 100, false, false⟩ }]) ∧
    (Event.ReadPageRequest [] (.ok ⟨[], 0, 100, false, false⟩) ∈
        (GetGasMetersCmd.execute Env.healthy [] [zeroAddress]).trace ∧
      ∃ a, [zeroAddress] = [a] ∧ Env.healthy.IsHexAddress a = true ∧
        remoteCalls (GetGasMetersCmd.execute Env.healthy [] [zeroAddress]).trace =
          [.GasMeters { Contract := a, Pagination := ⟨[], 0, 100, false, false⟩ }]) ∧
    (Event.ReadPageRequest [] (.fail (.external "flag parse")) ∈
        (GetGasMetersCmd.execute Env.badPageFlags [] [zeroAddress]).trace ∧
      (GetGasMetersCmd.execute Env.badPageFlags [] [zeroAddress]).out =
        .err (.external "flag parse") ∧
      remoteCalls (GetGasMetersCmd.execute Env.badPageFlags [] [zeroAddress]).trace = []) :=
  ⟨⟨by decide, (pagination_forwarded Env.healthy [] []).1 _ (by decide)⟩,
    ⟨by decide, (pagination_forwarded Env.healthy [] [zeroAddress]).2.1 _ (by decide)⟩,
    ⟨by decide,
      (pagination_forwarded Env.badPageFlags [] [zeroAddress]).2.2.1 GetGasMetersCmd
        (by simp) (.external "flag parse") (by decide)⟩⟩

/-- C10 (as stated, refuted): client setup runs before the pagination reader, not
after it. On a reachable node the run of `incentives` calls client setup first and
the pagination reader second; when no client context can be set up, `incentives`
and `gas-meters` return the client-setup error and the pagination reader, which
would have succeeded, is not called at all. -/
theorem pagination_reader_runs_after_client_setup :
    GetIncentivesCmd.execute Env.healthy [] [] =
      ⟨[.GetClientQueryContext [] (.ok ⟨"tcp://localhost:26657", "text", 0⟩),
          .ReadPageRequest [] (.ok ⟨[], 0, 100, false, false⟩),
          .Remote ⟨"tcp://localhost:26657", "text", 0⟩
            (.Incentives { Pagination := ⟨[], 0, 100, false, false⟩ }) (.ok ⟨"incentives"⟩),
          .PrintProto ⟨"tcp://localhost:26657", "text", 0⟩ ⟨"incentives"⟩ none],
        .ok ()⟩ ∧
    Env.noClient.ReadPageRequest [] = .ok ⟨[], 0, 100, false, false⟩ ∧
    GetIncentivesCmd.execute Env.noClient [] [] =
      ⟨[.GetClientQueryContext [] (.fail (.external "client setup"))],
        .err (.external "client setup")⟩ ∧
    (∀ ev ∈ (GetIncentivesCmd.execute Env.noClient [] []).trace,
      ev.isReadPageRequest = false) ∧
    GetGasMetersCmd.execute Env.noClient [] [zeroAddress] =
      ⟨[.IsHexAddress zeroAddress true,
          .GetClientQueryContext [] (.fail (.external "client setup"))],
        .err (.external "client setup")⟩ ∧
    (∀ ev ∈ (GetGasMetersCmd.execute Env.noClient [] [zeroAddress]).trace,
      ev.isReadPageRequest = false) := by
  decide

/-- C10 (amended): in `incentives` and `gas-meters` client setup runs before the
pagination reader. When client setup fails the command returns the client-setup
error and the reader is not called; when client setup succeeds the reader is the
next collaborator called (for `gas-meters`, with a valid address argument, after
the address check); and in every invocation the reader is called only if client
setup returned a context, so an error of the reader can be reported only then. -/
theorem client_setup_precedes_pagination (env : Env) (flags : Flags) :
    (∀ e, env.GetClientQueryContext flags = .fail e →
      GetIncentivesCmd.execute env flags [] =
        ⟨[.GetClientQueryContext flags (.fail e)], .err e⟩ ∧
      ∀ a, env.IsHexAddress a = true →
        GetGasMetersCmd.execute env flags [a] =
          ⟨[.IsHexAddress a true, .GetClientQueryContext flags (.fail e)], .err e⟩) ∧
    (∀ ctx, env.GetClientQueryContext flags = .ok ctx →
      (∃ rest, (GetIncentivesCmd.execute env flags []).trace =
        .GetClientQueryContext flags (.ok ctx) ::
          .ReadPageRequest flags (env.ReadPageRequest flags) :: rest) ∧
      ∀ a, env.IsHexAddress a = true →
        ∃ rest, (GetGasMetersCmd.execute env flags [a]).trace =
          .IsHexAddress a true :: .GetClientQueryContext flags (.ok ctx) ::
            .ReadPageRequest flags (env.ReadPageRequest flags) :: rest) ∧
    (∀ c ∈ [GetIncentivesCmd, GetGasMetersCmd], ∀ (args : List String) (r : Ret PageRequest),
      Event.ReadPageRequest flags r ∈ (c.execute env flags args).trace →
      ∃ ctx, env.GetClientQueryContext flags = .ok ctx) := by
  refine ⟨fun e hc => ⟨?_, fun a ha => ?_⟩, fun ctx hc => ⟨?_, fun a ha => ?_⟩, ?_⟩
  · simp [Command.execute, GetIncentivesCmd, PositionalArgs.validate, GetIncentivesCmd.RunE,
      bind, Exec.bind, Exec.call, hc]
  · simp [Command.execute, GetGasMetersCmd, PositionalArgs.validate, GetGasMetersCmd.RunE,
      bind, Exec.bind, pure, Exec.call, callIsHexAddress, index, hc, ha]
  · simp only [Command.execute, GetIncentivesCmd, PositionalArgs.validate,
      GetIncentivesCmd.RunE, bind, Exec.bind, pure, Exec.call, callPrintProto, Exec.fail, hc]
    repeat' split
    all_goals simp_all
  · simp only [Command.execute, GetGasMetersCmd, PositionalArgs.validate,
      GetGasMetersCmd.RunE, bind, Exec.bind, pure, Exec.call, callPrintProto, Exec.fail,
      callIsHexAddress, index, hc, ha]
    simp only [List.length_singleton, ne_eq, not_true_eq_false, ↓reduceIte, List.get?_cons_zero]
    repeat' split
    all_goals simp_all
  · intro c hc args r
    simp only [List.mem_cons, List.mem_singleton, List.not_mem_nil, or_false] at hc
    rcases hc with rfl | rfl
    · rcases args with _ | ⟨a, rest⟩
      · simp only [Command.execute, GetIncentivesCmd, PositionalArgs.validate,
          GetIncentivesCmd.RunE, bind, Exec.bind, pure, Exec.call, callPrintProto, Exec.fail]
        repeat' split
        all_goals simp_all
      · simp [Command.execute, GetIncentivesCmd, PositionalArgs.validate, Exec.fail]
    · rcases args with _ | ⟨a, _ | ⟨b, rest⟩⟩
      · simp [Command.execute, GetGasMetersCmd, PositionalArgs.validate, Exec.fail]
      · simp only [Command.execute, GetGasMetersCmd, PositionalArgs.validate,
          GetGasMetersCmd.RunE, bind, Exec.bind, pure, Exec.call, callPrintProto, Exec.fail,
          callIsHexAddress, index]
        simp only [List.length_singleton, ne_eq, not_true_eq_false, ↓reduceIte,
          List.get?_cons_zero]
        repeat' split
        all_goals simp_all
      · simp [Command.execute, GetGasMetersCmd, PositionalArgs.validate, Exec.fail]

/-- Witness of `client_setup_precedes_pagination`: `incentives` without a client context,
and `gas-meters` with the zero address on a reachable node. -/
theorem client_setup_precedes_pagination_witness :
    (Env.noClient.GetClientQueryContext [] = .fail (.external "client setup") ∧
      GetIncentivesCmd.execute Env.noClient [] [] =
        ⟨[.GetClientQueryContext [] (.fail (.external "client setup"))],
          .err (.external "client setup")⟩) ∧
    (Env.healthy.GetClientQueryContext [] = .ok ⟨"tcp://localhost:26657", "text", 0⟩ ∧
      Env.healthy.IsHexAddress zeroAddress = true ∧
      ∃ rest, (GetGasMetersCmd.execute Env.healthy [] [zeroAddress]).trace =
        .IsHexAddress zeroAddress true ::
          .GetClientQueryContext [] (.ok ⟨"tcp://localhost:26657", "text", 0⟩) ::
          .ReadPageRequest [] (Env.healthy.ReadPageRequest []) :: rest) ∧
    (Event.ReadPageRequest [] (.ok ⟨[], 0, 100, false, false⟩) ∈
        (GetGasMetersCmd.execute Env.healthy [] [zeroAddress]).trace ∧
      ∃ ctx, Env.healthy.GetClientQueryContext [] = .ok ctx) :=
  ⟨⟨rfl, ((client_setup_precedes_pagination Env.noClient []).1 (.external "client setup")
      rfl).1⟩,
    ⟨rfl, by decide,
      ((client_setup_precedes_pagination Env.healthy []).2.1
        ⟨"tcp://localhost:26657", "text", 0⟩ rfl).2 zeroAddress (by decide)⟩,
    ⟨by decide,
      (client_setup_precedes_pagination Env.healthy []).2.2 GetGasMetersCmd (by simp)
        [zeroAddress] (.ok ⟨[], 0, 100, false, false⟩) (by decide)⟩⟩

/-- C9: for each of the five commands and every invocation, at most one remote call
is made and every remote call goes to the method the interface table pairs with
the command. On an input with the command's number of arguments, exactly one call
is made precisely when address validation, client setup and (for a command with
pagination flags) pagination reading all succeed on that input, and no call is
made otherwise; on an input with another number of arguments no stage runs and no
call is made. -/
theorem one_remote_call_iff_stages_succeed (c : Command) (hc : c ∈ GetQueryCmd.commands)
    (env : Env) (flags : Flags) (args : List String) :
    ∃ row, tableRow c.Name = some row ∧
      (remoteCalls (c.execute env flags args).trace).length ≤ 1 ∧
      (∀ call ∈ remoteCalls (c.execute env flags args).trace, call.method = row.method) ∧
      (args.length = row.positional →
        ((remoteCalls (c.execute env flags args).trace).length = 1 ↔
          stagesSucceed env row.paginated flags args) ∧
        (¬ stagesSucceed env row.paginated flags args →
          remoteCalls (c.execute env flags args).trace = [])) ∧
      (args.length ≠ row.positional → remoteCalls (c.execute env flags args).trace = []) := by
  simp only [GetQueryCmd.commands, List.mem_cons, List.mem_singleton, List.not_mem_nil,
    or_false] at hc
  rcases hc with rfl | rfl | rfl | rfl | rfl
  · refine ⟨⟨"incentives", 0, true, .Incentives⟩, by decide, ?_⟩
    rcases args with _ | ⟨a, rest⟩
    · simp only [Command.execute, GetIncentivesCmd, PositionalArgs.validate,
        GetIncentivesCmd.RunE, bind, Exec.bind, pure, Exec.call, callPrintProto, Exec.fail]
      repeat' split
      all_goals simp_all [remoteCalls, stagesSucceed, RemoteCall.method]
    · simp [Command.execute, GetIncentivesCmd, PositionalArgs.validate, Exec.fail, remoteCalls]
  · refine ⟨⟨"incentive", 1, false, .Incentive⟩, by decide, ?_⟩
    rcases args with _ | ⟨a, _ | ⟨b, rest⟩⟩
    · simp [Command.execute, GetIncentiveCmd, PositionalArgs.validate, Exec.fail, remoteCalls]
    · simp only [Command.execute, GetIncentiveCmd, PositionalArgs.validate,
        GetIncentiveCmd.RunE, bind, Exec.bind, pure, Exec.call, callPrintProto, Exec.fail,
        callIsHexAddress, index]
      simp only [List.length_singleton, ne_eq, not_true_eq_false, ↓reduceIte, List.get?_cons_zero]
      repeat' split
      all_goals simp_all [remoteCalls, stagesSucceed, RemoteCall.method]
    · simp [Command.execute, GetIncentiveCmd, PositionalArgs.validate, Exec.fail, remoteCalls]
  · refine ⟨⟨"gas-meters", 1, true, .GasMeters⟩, by decide, ?_⟩
    rcases args with _ | ⟨a, _ | ⟨b, rest⟩⟩
    · simp [Command.execute, GetGasMetersCmd, PositionalArgs.validate, Exec.fail, remoteCalls]
    · simp only [Command.execute, GetGasMetersCmd, PositionalArgs.validate,
        GetGasMetersCmd.RunE, bind, Exec.bind, pure, Exec.call, callPrintProto, Exec.fail,
        callIsHexAddress, index]
      simp only [List.length_singleton, ne_eq, not_true_eq_false, ↓reduceIte, List.get?_cons_zero]
      repeat' split
      all_goals simp_all [remoteCalls, stagesSucceed, RemoteCall.method]
    · simp [Command.execute, GetGasMetersCmd, PositionalArgs.validate, Exec.fail, remoteCalls]
  · refine ⟨⟨"gas-meter", 2, false, .GasMeter⟩, by decide, ?_⟩
    rcases args with _ | ⟨a, _ | ⟨b, _ | ⟨d, rest⟩⟩⟩
    · simp [Command.execute, GetGasMeterCmd, PositionalArgs.validate, Exec.fail, remoteCalls]
    · simp [Command.execute, GetGasMeterCmd, PositionalArgs.validate, Exec.fail, remoteCalls]
    · simp only [Command.execute, GetGasMeterCmd, PositionalArgs.validate,
        GetGasMeterCmd.RunE, bind, Exec.bind, pure, Exec.call, callPrintProto, Exec.fail,
        callIsHexAddress, index]
      simp only [List.length_cons, List.length_nil, ne_eq, not_true_eq_false, ↓reduceIte,
        List.get?_cons_zero, List.get?_cons_succ]
      repeat' split
      all_goals simp_all [remoteCalls, stagesSucceed, RemoteCall.method]
    · simp [Command.execute, GetGasMeterCmd, PositionalArgs.validate, Exec.fail, remoteCalls]
  · refine ⟨⟨"params", 0, false, .Params⟩, by decide, ?_⟩
    rcases args with _ | ⟨a, rest⟩
    · simp only [Command.execute, GetParamsCmd, PositionalArgs.validate,
        GetParamsCmd.RunE, bind, Exec.bind, pure, Exec.call, callPrintProto, Exec.fail]
      repeat' split
      all_goals simp_all [remoteCalls, stagesSucceed, RemoteCall.method]
    · simp [Command.execute, GetParamsCmd, PositionalArgs.validate, Exec.fail, remoteCalls]

/-- Witness of `one_remote_call_iff_stages_succeed`: on a reachable node every stage of
`gas-meters` with the zero address succeeds, so exactly one call is made; without a
client context the stages do not all succeed, so none is made. -/
theorem one_remote_call_iff_stages_succeed_witness :
    GetGasMetersCmd ∈ GetQueryCmd.commands ∧
    (stagesSucceed Env.healthy true [] [zeroAddress] ∧
      remoteCalls (GetGasMetersCmd.execute Env.healthy [] [zeroAddress]).trace =
        [.GasMeters { Contract := zeroAddress, Pagination := ⟨[], 0, 100, false, false⟩ }] ∧
      (remoteCalls (GetGasMetersCmd.execute Env.healthy [] [zeroAddress]).trace).length = 1) ∧
    (¬ stagesSucceed Env.noClient true [] [zeroAddress] ∧
      remoteCalls (GetGasMetersCmd.execute Env.noClient [] [zeroAddress]).trace = []) := by
  have hrow : tableRow GetGasMetersCmd.Name = some ⟨"gas-meters", 1, true, .GasMeters⟩ := by
    decide
  have hs : stagesSucceed Env.healthy true [] [zeroAddress] :=
    ⟨by decide, ⟨_, rfl⟩, fun _ => ⟨_, rfl⟩⟩
  have hn : ¬ stagesSucceed Env.noClient true [] [zeroAddress] := by
    rintro ⟨-, ⟨ctx, h⟩, -⟩
    simp [Env.noClient] at h
  obtain ⟨row, hr, -, -, h, -⟩ :=
    one_remote_call_iff_stages_succeed GetGasMetersCmd (by simp [GetQueryCmd.commands])
      Env.healthy [] [zeroAddress]
  obtain ⟨row', hr', -, -, h', -⟩ :=
    one_remote_call_iff_stages_succeed GetGasMetersCmd (by simp [GetQueryCmd.commands])
      Env.noClient [] [zeroAddress]
  rw [hrow] at hr hr'
  cases hr
  cases hr'
  exact ⟨by simp [GetQueryCmd.commands], ⟨hs, by decide, (h rfl).1.mpr hs⟩, hn, (h' rfl).2 hn⟩

end Incentives
